import Mathlib

/-!
Verification development for the capture-kit content-intelligence core:
the content analyzer (`automation/content_analyzer.py`), the benchmark
pattern aggregator (`benchmarks/benchmark_manager.py`), the reply
generator's strategy selection and length calibration
(`engagement/reply_generator.py`), and the scoring engine
(`engagement/scoring.py`).

The Python code is shallowly embedded: strings are Lean `String`s
(operated on as `List Char`), Python ints are `Int`/`Nat`, Python floats
are modelled as exact rationals `ℚ`, dictionaries become structures, and
the regular-expression searches of the source are translated pattern by
pattern into decidable matchers over character lists.  Each matcher
carries a comment naming the regex it models.
-/

namespace CaptureKit

/- ===== Python string primitives ===== -/

/-- The apostrophe character, used to build pattern literals. -/
def apos : Char := Char.ofNat 39

/-- Python whitespace (`str.split()` / `str.strip()` and regex `\s`),
ASCII range: space, tab, newline, carriage return, vertical tab, form feed. -/
def isPyWs (c : Char) : Bool :=
  c = ' ' || c = '\t' || c = '\n' || c = Char.ofNat 13 || c = Char.ofNat 11 || c = Char.ofNat 12

/-- `str.strip()` on a character list. -/
def stripL (l : List Char) : List Char :=
  ((l.dropWhile isPyWs).reverse.dropWhile isPyWs).reverse

/-- Python `s.strip()`. -/
def pyStrip (s : String) : String := ⟨stripL s.data⟩

/-- Python `s.lower()` (ASCII). -/
def lowerS (s : String) : String := ⟨s.data.map Char.toLower⟩

/-- Python `s.upper()` (ASCII). -/
def upperS (s : String) : String := ⟨s.data.map Char.toUpper⟩

/-- Whitespace split, accumulator style: models Python `s.split()`
(no empty fields, any whitespace run separates). -/
def splitWsAux : List Char → List Char → List (List Char)
  | [], acc => if acc.isEmpty then [] else [acc.reverse]
  | c :: t, acc =>
    if isPyWs c then
      if acc.isEmpty then splitWsAux t [] else acc.reverse :: splitWsAux t []
    else splitWsAux t (c :: acc)

/-- Python `s.split()`. -/
def pySplitWs (s : String) : List String := (splitWsAux s.data []).map (fun l => ⟨l⟩)

/-- `len(s.split())`, the word count used throughout the code. -/
def wordCount (s : String) : Nat := (pySplitWs s).length

/-- `" ".join(ws)` on character lists. -/
def joinSpaceL : List (List Char) → List Char
  | [] => []
  | [w] => w
  | w :: t => w ++ ' ' :: joinSpaceL t

/-- Python `" ".join(ws)`. -/
def joinSpace (ws : List String) : String := ⟨joinSpaceL (ws.map String.data)⟩

/-- The prefix of `s` before the first `'\n'`: `s.split('\n')[0]`. -/
def beforeNL (s : String) : String := ⟨s.data.takeWhile (fun c => c ≠ '\n')⟩

/-- `len(s.split('\n'))` = number of newline characters plus one. -/
def lineCount (s : String) : Nat := (s.data.filter (fun c => c = '\n')).length + 1

/-- Sentence-ending characters of the regex class `[.!?]`. -/
def isSentEnd (c : Char) : Bool := c = '.' || c = '!' || c = '?'

/-- The prefix before the first `.`/`!`/`?`: `re.split(r'[.!?]', s)[0]`. -/
def beforeSentChar (s : String) : String := ⟨s.data.takeWhile (fun c => !isSentEnd c)⟩

/-- Number of maximal nonempty runs of `[.!?]` characters; the flag
records whether the previous character was a separator. -/
def sentRunAux : List Char → Bool → Nat
  | [], _ => 0
  | c :: t, inRun =>
    if isSentEnd c then
      if inRun then sentRunAux t true else sentRunAux t true + 1
    else sentRunAux t false

/-- Number of maximal nonempty runs of `[.!?]` characters in `l`. -/
def sentRunCount (l : List Char) : Nat := sentRunAux l false

/-- `len(re.split(r'[.!?]+', s))`: one more field than there are
(maximal) separator runs. -/
def sentenceCount (s : String) : Nat := sentRunCount s.data + 1

/-- Accumulator for the single-character sentence split. -/
def sentSplitAux : List Char → List Char → List (List Char)
  | [], acc => [acc.reverse]
  | c :: t, acc => if isSentEnd c then acc.reverse :: sentSplitAux t [] else sentSplitAux t (c :: acc)

/-- Fields of `re.split(r'[.!?]', s)` (single-character separator class),
as used by the scoring engine's sentence statistics. -/
def sentSplit1 (l : List Char) : List (List Char) := sentSplitAux l []

/-- `re.split(r'[.!?]', s)` on strings. -/
def pySentSplit (s : String) : List String := (sentSplit1 s.data).map (fun l => ⟨l⟩)

/-- Python `l1` is a prefix of `l2` (character lists). -/
def isPrefixL : List Char → List Char → Bool
  | [], _ => true
  | _ :: _, [] => false
  | a :: as, b :: bs => a = b && isPrefixL as bs

/-- Substring containment: models `needle in hay` / `re.search` of a literal. -/
def containsSubL (needle : List Char) : List Char → Bool
  | [] => isPrefixL needle []
  | c :: t => isPrefixL needle (c :: t) || containsSubL needle t

/-- `needle in hay` on strings. -/
def containsSub (hay needle : String) : Bool := containsSubL needle.data hay.data

/-- Any of the literal alternatives occurs in `hay`. -/
def containsAny (hay : String) (needles : List String) : Bool :=
  needles.any (fun n => containsSub hay n)

/-- `hay.startswith(p)` / anchored `re.search(r'^lit', hay)`. -/
def startsWithL (hay p : String) : Bool := isPrefixL p.data hay.data

/-- Anchored alternation `^(a|b|...)`: some alternative is a prefix. -/
def startsWithAny (hay : String) (ps : List String) : Bool :=
  ps.any (fun p => startsWithL hay p)

/-- Does some suffix of `l` satisfy `p`?  Backbone of positional regex
searches (`re.search` tries every start position). -/
def existsSuffix (p : List Char → Bool) : List Char → Bool
  | [] => p []
  | c :: t => p (c :: t) || existsSuffix p t

/-- `X.*Y` search with `.` not matching `'\n'`: an occurrence of `x`
followed, with no newline in between, by an occurrence of some `y ∈ ys`. -/
def xThenYsL (x : List Char) (ys : List (List Char)) : List Char → Bool
  | [] => isPrefixL x [] && ys.any (fun y => containsSubL y [])
  | c :: t =>
    (isPrefixL x (c :: t) &&
      ys.any (fun y => containsSubL y (((c :: t).drop x.length).takeWhile (fun d => d ≠ '\n')))) ||
    xThenYsL x ys t

/-- `(x1|x2|...).*( y1|y2|...)` search (no newline crossed by `.*`). -/
def anyThenAny (hay : String) (xs ys : List String) : Bool :=
  xs.any (fun x => xThenYsL x.data (ys.map String.data) hay.data)

/-- Python `s[:n]` for a nonnegative count. -/
def takeStr (s : String) (n : Nat) : String := ⟨s.data.take n⟩

/-- Python list slice `l[:k]` for an `int` bound (negative counts from the end). -/
def pySliceTo {α : Type} (l : List α) (k : Int) : List α :=
  if 0 ≤ k then l.take k.toNat else l.take ((l.length : Int) + k).toNat

/-- Last character of a string, if any. -/
def lastChar (s : String) : Option Char := s.data.getLast?

/-- Python `s.endswith((".", "!", "?"))`. -/
def endsWithPunct (s : String) : Bool :=
  match lastChar s with
  | some c => isSentEnd c
  | none => false

/-- A digit occurs somewhere: `re.search(r'\d', s)` / `re.search(r'\d+', s)`. -/
def hasDigit (s : String) : Bool := s.data.any Char.isDigit

/-- `re.search(r'\d+%', s)`: some digit immediately followed by `%`
(a digit run may stop right before the `%`). -/
def digitPct (s : String) : Bool :=
  existsSuffix (fun l => match l with
    | a :: b :: _ => a.isDigit && b = '%'
    | _ => false) s.data

/-- `re.search(r'\$[\d,]+', s)`: `$` immediately followed by a digit or comma. -/
def dollarDigits (s : String) : Bool :=
  existsSuffix (fun l => match l with
    | a :: b :: _ => a = '$' && (b.isDigit || b = ',')
    | _ => false) s.data

/-- `re.search(r'\$[A-Z]{1,5}', s)` (case sensitive): `$` followed by an
uppercase letter. -/
def dollarTicker (s : String) : Bool :=
  existsSuffix (fun l => match l with
    | a :: b :: _ => a = '$' && ('A' ≤ b && b ≤ 'Z')
    | _ => false) s.data

/-- `re.search(r'@\w+', s)`: `@` followed by a word character. -/
def isWordChar (c : Char) : Bool := c.isAlphanum || c = '_'

/-- `@` immediately followed by a word character. -/
def atMention (s : String) : Bool :=
  existsSuffix (fun l => match l with
    | a :: b :: _ => a = '@' && isWordChar b
    | _ => false) s.data

/-- A digit immediately followed by the character `c`
(search form of `\d+x`, `\d+/...`, ...). -/
def digitThenChar (s : String) (c : Char) : Bool :=
  existsSuffix (fun l => match l with
    | a :: b :: _ => a.isDigit && b = c
    | _ => false) s.data

/-- `re.search(r'\d+/\d+', s)`: digit, slash, digit. -/
def digitSlashDigit (s : String) : Bool :=
  existsSuffix (fun l => match l with
    | a :: b :: c :: _ => a.isDigit && b = '/' && c.isDigit
    | _ => false) s.data

/-- Anchored `^\d+[cs...]`: a nonempty digit prefix followed by one of `cs`
(the digit run must be maximal since no `c ∈ cs` is a digit). -/
def startsDigitsThen (s : String) (cs : List Char) : Bool :=
  match s.data with
  | c :: t =>
    c.isDigit &&
      (match t.dropWhile Char.isDigit with
       | d :: _ => cs.contains d
       | [] => false)
  | [] => false

/-- `\d+ (w1|w2|...)`: digit, space, then one of the keywords. -/
def digitSpaceWord (s : String) (ws : List String) : Bool :=
  existsSuffix (fun l => match l with
    | a :: b :: rest => a.isDigit && b = ' ' && ws.any (fun w => isPrefixL w.data rest)
    | _ => false) s.data

/-- `lit\d`: the literal `x` immediately followed by a digit
(search form of `only \d+`, `slide \d+`). -/
def litThenDigit (s : String) (x : String) : Bool :=
  existsSuffix (fun l => isPrefixL x.data l &&
    (match l.drop x.length with
     | d :: _ => d.isDigit
     | [] => false)) s.data

/-- `re.search(r'top \d+%', s)`: `top `, a digit run, then `%`. -/
def topDigitPct (s : String) : Bool :=
  existsSuffix (fun l => isPrefixL "top ".data l &&
    (match l.drop 4 with
     | d :: _ => d.isDigit
     | [] => false) &&
    (match (l.drop 4).dropWhile Char.isDigit with
     | c :: _ => c = '%'
     | [] => false)) s.data

/-- `re.search(r'\d+%.*return', s)` (no newline under `.*`). -/
def digitPctThen (s : String) (y : String) : Bool :=
  existsSuffix (fun l => match l with
    | a :: b :: rest =>
      a.isDigit && b = '%' && containsSubL y.data (rest.takeWhile (fun d => d ≠ '\n'))
    | _ => false) s.data

/-- `re.search(r'game.?changer', s)`: `game` then `changer`, optionally with
one (non-newline) character in between. -/
def gameChanger (s : String) : Bool :=
  existsSuffix (fun l => isPrefixL "game".data l &&
    (isPrefixL "changer".data (l.drop 4) ||
      (match l.drop 4 with
       | c :: rest => c ≠ '\n' && isPrefixL "changer".data rest
       | [] => false))) s.data

/-- `re.search(r'https?://', s)`. -/
def httpLink (s : String) : Bool :=
  containsSub s "http://" || containsSub s "https://"

/-- `len(re.findall(r'#\w+', s))`: each `#` immediately followed by a word
character starts one (maximal) match, and a match never swallows the start
of another. -/
def countSuffixes (p : List Char → Bool) : List Char → Nat
  | [] => if p [] then 1 else 0
  | c :: t => (if p (c :: t) then 1 else 0) + countSuffixes p t

/-- Number of `#\w+` hashtag matches. -/
def hashtagCount (s : String) : Nat :=
  countSuffixes (fun l => match l with
    | a :: b :: _ => a = '#' && isWordChar b
    | _ => false) s.data

/- ===== Pattern literals containing special characters ===== -/

/-- One-character apostrophe string. -/
def aposS : String := ⟨[apos]⟩

/-- The double-quote character. -/
def dquote : Char := Char.ofNat 34

/-- The thread emoji of the framework pattern. -/
def threadEmoji : String := ⟨[Char.ofNat 0x1F9F5]⟩

def sDont : String := "don" ++ aposS ++ "t"
def sWont : String := "won" ++ aposS ++ "t"
def sCant : String := "can" ++ aposS ++ "t"
def sIsnt : String := "isn" ++ aposS ++ "t"
def sArent : String := "aren" ++ aposS ++ "t"
def sIts : String := "it" ++ aposS ++ "s"
def sThats : String := "that" ++ aposS ++ "s"
def sHeres : String := "here" ++ aposS ++ "s"
def sTheres : String := "there" ++ aposS ++ "s"
def sHeresHow : String := sHeres ++ " how"
def sYoureRight : String := "you" ++ aposS ++ "re right"
def sIfYoureA : String := "if you" ++ aposS ++ "re a"
def sBeforeIts : String := "before it" ++ aposS ++ "s"
def sDontMiss : String := sDont ++ " miss"
def sIve : String := "i" ++ aposS ++ "ve "
def sIm : String := "i" ++ aposS ++ "m "

/- ===== Content analyzer (`automation/content_analyzer.py`) ===== -/

/-- `HookType` enum of `automation/schemas.py`, in declaration order. -/
inductive HookType
  | question | contrarian | data | story | callout | bold_claim | how_to | list
deriving DecidableEq

/-- `.value` of each `HookType` member. -/
def hookValue : HookType → String
  | .question => "question"
  | .contrarian => "contrarian"
  | .data => "data"
  | .story => "story"
  | .callout => "callout"
  | .bold_claim => "bold_claim"
  | .how_to => "how_to"
  | .list => "list"

/-- Iteration order of `ContentAnalyzer.HOOK_PATTERNS` (dict insertion order). -/
def hookOrder : List HookType :=
  [.question, .contrarian, .data, .story, .callout, .bold_claim, .how_to, .list]

/-- `^\s*[A-Z].*\?` with `re.IGNORECASE`: after the leading whitespace run a
letter, then a `?` later with no newline in between. -/
def questionPat1 (hk : String) : Bool :=
  match hk.data.dropWhile isPyWs with
  | [] => false
  | c :: t => c.isAlpha && (t.takeWhile (fun d => d ≠ '\n')).any (fun d => d = '?')

/-- Does some pattern of `HOOK_PATTERNS[t]` match the hook text
(case-insensitively, as in `_analyze_hook`)? -/
def hookMatches (t : HookType) (hk : String) : Bool :=
  let lk := lowerS hk
  match t with
  | .question =>
    questionPat1 hk ||
    startsWithAny lk ["what", "why", "how", "when", "where", "who", "which",
      "do you", "have you", "did you"]
  | .contrarian =>
    containsAny lk ["unpopular opinion", "hot take", "controversial", "against the grain"] ||
    (anyThenAny lk ["everyone"] ["wrong", "missing"] ||
     anyThenAny lk ["nobody"] ["talking", "realizes"]) ||
    anyThenAny lk ["stop", "quit", sDont] ["doing", "believing", "thinking"]
  | .data =>
    digitPct lk || dollarDigits lk || digitThenChar lk 'x' ||
    anyThenAny lk ["data", "research", "study", "survey", "analysis"]
      ["shows", "reveals", "finds"]
  | .story =>
    startsWithAny lk ["i ", "my ", "we ", "our ", "last ", "yesterday ", "today ", "when i"] ||
    containsAny lk ["years ago", "months ago", "story", "learned", "realized", "discovered"]
  | .callout =>
    (atMention lk || containsAny lk ["hey ", "attention ", "to all", "for everyone"]) ||
    containsAny lk [sIfYoureA, "for those who", "anyone who"]
  | .bold_claim =>
    startsWithAny lk ["this is", "the ", sHeres, sTheres] ||
    (containsAny lk ["will change", "revolutionary", "secret"] || gameChanger lk) ||
    anyThenAny lk ["most people", "99%", "majority"] [sDont, sWont, sCant]
  | .how_to =>
    startsWithAny lk ["how to", "how i", sHeresHow, "step"] ||
    digitSpaceWord lk ["ways", "steps", "tips", "tricks", "secrets"]
  | .list =>
    startsDigitsThen lk ['.', ')'] ||
    (digitSpaceWord lk ["things"] || containsAny lk ["thread", "breakdown"])

/-- Strength of a matching hook: base `0.7`, `+0.2` when the hook text is the
very start of the first line, `+0.1` when it is at most 50 characters. -/
def hookStrength (hk firstLine : String) : ℚ :=
  7/10 + (if hk = takeStr firstLine hk.length then 2/10 else 0) +
    (if hk.length ≤ 50 then 1/10 else 0)

/-- The hook candidate text: the stripped first line, or the stripped first
sentence when the first line exceeds 100 characters. -/
def hookCandidate (content : String) : String :=
  let firstLine := pyStrip (beforeNL content)
  if firstLine.length ≤ 100 then firstLine else pyStrip (beforeSentChar content)

/-- `ContentAnalyzer._analyze_hook`: greedy single pass over `hookOrder`,
keeping a running best that only a strictly higher strength replaces. -/
def analyze_hook (content : String) : Option HookType × String × ℚ :=
  let firstLine := pyStrip (beforeNL content)
  if firstLine = "" then (none, "", 0)
  else
    let hk := hookCandidate content
    let st := hookStrength hk firstLine
    let best := hookOrder.foldl
      (fun acc t =>
        if hookMatches t hk then
          if st > acc.2 then (some t, st) else acc
        else acc)
      ((none : Option HookType), (0 : ℚ))
    (best.1, takeStr hk 100, best.2)

/-- `Trigger` enum of `automation/schemas.py`. -/
inductive TriggerT
  | fear | greed | curiosity | fomo | validation | urgency | exclusivity
deriving DecidableEq

/-- `.value` of each `Trigger` member. -/
def triggerValue : TriggerT → String
  | .fear => "fear"
  | .greed => "greed"
  | .curiosity => "curiosity"
  | .fomo => "fomo"
  | .validation => "validation"
  | .urgency => "urgency"
  | .exclusivity => "exclusivity"

/-- Iteration order of `ContentAnalyzer.TRIGGER_PATTERNS`. -/
def triggerOrder : List TriggerT :=
  [.fear, .greed, .curiosity, .fomo, .validation, .urgency, .exclusivity]

/-- Does some pattern of `TRIGGER_PATTERNS[t]` match the lowercased content? -/
def triggerMatches (t : TriggerT) (lc : String) : Bool :=
  match t with
  | .fear =>
    containsAny lc ["warning", "danger", "risk", "mistake", "avoid", "never",
      "fail", "lose", "crash"] ||
    anyThenAny lc [sDont, sWont, sCant] ["survive", "make it", "succeed"]
  | .greed =>
    containsAny lc ["profit", "gain", "money", "wealth", "rich", "income", "revenue"] ||
    (dollarDigits lc || digitThenChar lc 'x' || digitPctThen lc "return")
  | .curiosity =>
    containsAny lc ["secret", "hidden", "revealed", "discover", "surprising", "unexpected"] ||
    (anyThenAny lc ["what"] ["actually"] || containsAny lc ["real reason", "truth about"])
  | .fomo =>
    (containsAny lc ["limited", "exclusive", "last chance", "ending soon"] ||
     litThenDigit lc "only ") ||
    containsAny lc [sDontMiss, sBeforeIts, "while you can"]
  | .validation =>
    containsAny lc [sYoureRight, "i agree", "exactly", "this is why"] ||
    (containsAny lc ["smart people", "successful", "winners"] || topDigitPct lc)
  | .urgency =>
    containsAny lc ["now", "today", "immediately", "right now", "asap"] ||
    containsAny lc ["deadline", "expires", "ends", "last"]
  | .exclusivity =>
    containsAny lc ["insider", "exclusive", "only for", "members only"] ||
    containsAny lc ["few know", "few understand", "few realize", "not many"]

/-- `ContentAnalyzer._analyze_triggers`: every trigger is evaluated
independently; strength is `min(0.25·count, 1)` plus a `+0.15` bonus
(clamped) when curiosity, fomo or fear was found. -/
def analyze_triggers (content : String) : List TriggerT × ℚ :=
  let lc := lowerS content
  let found := triggerOrder.filter (fun t => triggerMatches t lc)
  let strength := min ((found.length : ℚ) * (1/4)) 1
  let strength :=
    if found.any (fun t => t = .curiosity || t = .fomo || t = .fear) then
      min (strength + 3/20) 1
    else strength
  (found, strength)

/-- `ContentAnalyzer._detect_framework` (returns the `.value` string). -/
def detect_framework (content : String) : String :=
  let lc := lowerS content
  if containsSub lc "thread" || containsSub content threadEmoji ||
      digitSlashDigit content || startsDigitsThen content ['.', ')'] then "thread"
  else if startsWithL (pyStrip content) ⟨[dquote]⟩ ||
      (match content.data with
       | c :: t => (c = dquote || c = apos) &&
           (t.takeWhile (fun d => d ≠ '\n')).any (fun d => d = dquote || d = apos)
       | [] => false) then "quote_tweet"
  else if startsWithL (pyStrip content) "@" then "reply"
  else if containsSub lc "swipe" || litThenDigit lc "slide " || containsSub lc "carousel" then
    "carousel"
  else "single"

/-- The second specificity signal:
`re.search(r'(\d+%|\$[\d,]+|data|research|study)', content, re.IGNORECASE)`. -/
def hasDataSignal (content : String) : Bool :=
  let lc := lowerS content
  digitPct lc || dollarDigits lc || containsAny lc ["data", "research", "study"]

/-- The third specificity signal:
`re.search(r'(for example|e\.g\.|such as|like when)', content, re.IGNORECASE)`. -/
def hasExampleSignal (content : String) : Bool :=
  containsAny (lowerS content) ["for example", "e.g.", "such as", "like when"]

/-- The fourth specificity signal:
`re.search(r'(@\w+|\$[A-Z]{1,5})', content)` (case sensitive). -/
def mentionOrTicker (content : String) : Bool :=
  atMention content || dollarTicker content

/-- The 0–4 specificity point count of `_analyze_specificity`. -/
def specificitySignalCount (content : String) : Nat :=
  (if hasDigit content then 1 else 0) + (if hasDataSignal content then 1 else 0) +
    (if hasExampleSignal content then 1 else 0) + (if mentionOrTicker content then 1 else 0)

/-- `ContentAnalyzer._analyze_specificity`: four independent boolean
detectors, summed and thresholded (`≥3` concrete, `≥1` moderate, else vague). -/
def analyze_specificity (content : String) : String × Bool × Bool × Bool :=
  let has_numbers := hasDigit content
  let has_data := hasDataSignal content
  let has_examples := hasExampleSignal content
  let score := specificitySignalCount content
  let specificity := if score ≥ 3 then "concrete" else if score ≥ 1 then "moderate" else "vague"
  (specificity, has_numbers, has_data, has_examples)

/-- `ContentAnalyzer._check_platform_fit`: start at 100, subtract fixed
penalties per violated platform rule, floor at 0.  Rule tables are the
`PLATFORM_CONFIGS` constants of `automation/schemas.py`. -/
def check_platform_fit (content : String) (platform : String) : ℚ × List String :=
  let n := content.length
  if platform = "twitter" then
    let p1 := if n > 280 then
        ((30 : ℚ), ["Too long for tweet (" ++ toString n ++ " chars, max 280)"])
      else (0, [])
    let p2 := if n < 70 then ((10 : ℚ), ["Reply too short for engagement"]) else (0, [])
    (max (100 - p1.1 - p2.1) 0, p1.2 ++ p2.2)
  else if platform = "linkedin" then
    let p1 := if (n : ℚ) < 1200 * (1/2) then
        ((15 : ℚ), ["Consider expanding for LinkedIn depth"]) else (0, [])
    let p2 := if !content.data.any (fun c => c = '\n') then
        ((10 : ℚ), ["Add line breaks for readability"]) else (0, [])
    let p3 := if httpLink content then
        ((20 : ℚ), ["External links reduce LinkedIn reach"]) else (0, [])
    (max (100 - p1.1 - p2.1 - p3.1) 0, p1.2 ++ p2.2 ++ p3.2)
  else if platform = "instagram" then
    let h := hashtagCount content
    let p1 :=
      if h < 5 then
        ((10 : ℚ), ["Add more hashtags (" ++ toString h ++ ", aim for 5-15)"])
      else if h > 15 then
        ((10 : ℚ), ["Too many hashtags (" ++ toString h ++ ", max 15)"])
      else (0, [])
    (max (100 - p1.1) 0, p1.2)
  else (100, [])

/-- The analyzer's output record (`ContentAnalysis` dataclass of
`automation/schemas.py`).  The fields `authority_signals`, `techniques`,
`strengths` and `weaknesses` are not referenced by any claim and are
omitted from the embedding. -/
structure ContentAnalysis where
  content : String
  platform : String
  word_count : Nat
  char_count : Nat
  sentence_count : Nat
  line_count : Nat
  hook_type : String
  hook_text : String
  hook_strength : ℚ
  framework : String
  triggers : List String
  trigger_strength : ℚ
  specificity : String
  has_numbers : Bool
  has_data : Bool
  has_examples : Bool
  platform_score : ℚ
  platform_issues : List String
deriving DecidableEq

/-- `ContentAnalyzer.analyze`. -/
def analyze (content : String) (platform : String) : ContentAnalysis :=
  let h := analyze_hook content
  let tr := analyze_triggers content
  let sp := analyze_specificity content
  let pf := check_platform_fit content platform
  { content := content
    platform := platform
    word_count := wordCount content
    char_count := content.length
    sentence_count := sentenceCount content
    line_count := lineCount content
    hook_type := match h.1 with | some t => hookValue t | none => ""
    hook_text := h.2.1
    hook_strength := h.2.2
    framework := detect_framework content
    triggers := tr.1.map triggerValue
    trigger_strength := tr.2
    specificity := sp.1
    has_numbers := sp.2.1
    has_data := sp.2.2.1
    has_examples := sp.2.2.2
    platform_score := pf.1
    platform_issues := pf.2 }

/- ===== Benchmark manager (`benchmarks/benchmark_manager.py`) ===== -/

/-- A JSON-ish value as it reaches `_parse_metric` (Python unions).
Bools are Python `int` subclasses and are covered by `int`. -/
inductive PyVal
  | int (n : ℤ)
  | str (s : String)
  | float (q : ℚ)
  | null
deriving DecidableEq

/-- Value of a nonempty digit string. -/
def digitsVal (l : List Char) : ℤ :=
  l.foldl (fun a c => a * 10 + ((c.toNat : ℤ) - 48)) 0

/-- Floor of a rational (numerator and denominator are reduced, denominator
positive, so flooring division gives the floor). -/
def qFloor (q : ℚ) : ℤ := q.num.fdiv q.den

/-- Python `float(s)` on the common grammar: optional sign, digits with an
optional dot, optional exponent.  `inf`/`nan` inputs and underscore
separators are modelled as parse failures: in `_parse_metric` every such
case ends in the bare `except` returning 0, the same value the failure
branch produces here. -/
def pyFloatCore (l0 : List Char) : Option ℚ :=
  let sl := match l0 with
    | '+' :: t => ((1 : ℚ), t)
    | '-' :: t => ((-1 : ℚ), t)
    | _ => (1, l0)
  let l := sl.2
  let intDigits := l.takeWhile Char.isDigit
  let l1 := l.dropWhile Char.isDigit
  let fr := match l1 with
    | '.' :: t => (t.takeWhile Char.isDigit, t.dropWhile Char.isDigit)
    | _ => (([] : List Char), l1)
  if intDigits.isEmpty && fr.1.isEmpty then none
  else
    let mant : ℚ := (digitsVal intDigits : ℚ) + (digitsVal fr.1 : ℚ) / (10 ^ fr.1.length : ℚ)
    match fr.2 with
    | [] => some (sl.1 * mant)
    | c :: t =>
      if c = 'e' || c = 'E' then
        let se := match t with
          | '+' :: u => ((1 : ℤ), u)
          | '-' :: u => ((-1 : ℤ), u)
          | _ => (1, t)
        let ed := se.2.takeWhile Char.isDigit
        if ed.isEmpty || !(se.2.dropWhile Char.isDigit).isEmpty then none
        else
          let e := se.1 * digitsVal ed
          let scaled := if 0 ≤ e then mant * (10 ^ e.toNat : ℚ) else mant / (10 ^ (-e).toNat : ℚ)
          some (sl.1 * scaled)
      else none

/-- `float(s)` (strips surrounding whitespace like Python). -/
def pyFloatOpt (s : String) : Option ℚ := pyFloatCore (stripL s.data)

/-- Python `int(s)` for a decimal string: optional sign and digits. -/
def pyIntOpt (s : String) : Option ℤ :=
  let l0 := stripL s.data
  let sl := match l0 with
    | '+' :: t => ((1 : ℤ), t)
    | '-' :: t => ((-1 : ℤ), t)
    | _ => (1, l0)
  if sl.2.isEmpty then none
  else if sl.2.all Char.isDigit then some (sl.1 * digitsVal sl.2) else none

/-- `s.replace(",", "")`. -/
def removeCommas (s : String) : String := ⟨s.data.filter (fun c => c ≠ ',')⟩

/-- Python `int(q)` truncates toward zero. -/
def ratTrunc (q : ℚ) : ℤ := if 0 ≤ q then qFloor q else -(qFloor (-q))

/-- `s.endswith(suf)`. -/
def endsWithStr (s suf : String) : Bool := isPrefixL suf.data.reverse s.data.reverse

/-- Python `s[:-n]`. -/
def dropRightStr (s : String) (n : Nat) : String := ⟨s.data.take (s.data.length - n)⟩

/-- `BenchmarkManager._parse_metric`: ints pass through, strings are
stripped/uppercased; `K`/`M`/`B` suffixes scale a float prefix; otherwise
commas are removed and the string parsed as an int; every failure and every
non-int/non-str value yields 0. -/
def parse_metric : PyVal → ℤ
  | .int n => n
  | .str s =>
    let v := upperS (pyStrip s)
    if v = "" || v = "0" then 0
    else if endsWithStr v "K" then
      match pyFloatOpt (dropRightStr v 1) with
      | some q => ratTrunc (q * 1000)
      | none => 0
    else if endsWithStr v "M" then
      match pyFloatOpt (dropRightStr v 1) with
      | some q => ratTrunc (q * 1000000)
      | none => 0
    else if endsWithStr v "B" then
      match pyFloatOpt (dropRightStr v 1) with
      | some q => ratTrunc (q * 1000000000)
      | none => 0
    else
      match pyIntOpt (removeCommas v) with
      | some n => n
      | none => 0
  | _ => 0

/- ===== Counter / statistics helpers ===== -/

/-- Number of occurrences of `a` in `l`. -/
def countEq {α : Type} [DecidableEq α] (l : List α) (a : α) : Nat :=
  (l.filter (fun b => decide (b = a))).length

/-- Deduplicate keeping first occurrences (insertion order of a `Counter`). -/
def firstUniq {α : Type} [DecidableEq α] : List α → List α
  | [] => []
  | a :: t => a :: firstUniq (t.filter (fun b => decide (b ≠ a)))
termination_by l => l.length
decreasing_by
  exact Nat.lt_succ_of_le (List.length_filter_le _ _)

/-- Stable insertion for a descending sort by key: `a` goes before the first
element whose key is not larger (Python `sorted(..., reverse=True)` keeps
the original order of equal keys). -/
def stableInsertDesc {α : Type} (key : α → Nat) (a : α) : List α → List α
  | [] => [a]
  | b :: t => if key a < key b then b :: stableInsertDesc key a t else a :: b :: t

/-- Stable descending sort by key. -/
def stableSortDesc {α : Type} (key : α → Nat) : List α → List α
  | [] => []
  | a :: t => stableInsertDesc key a (stableSortDesc key t)

/-- `Counter(l).most_common(n)` (elements only): first-occurrence order,
stably sorted by count descending, truncated to `n`. -/
def most_common {α : Type} [DecidableEq α] (n : Nat) (l : List α) : List α :=
  (stableSortDesc (fun a => countEq l a) (firstUniq l)).take n

/-- Largest element of a rational list (`max(l)`, junk 0 on `[]`). -/
def listMax : List ℚ → ℚ
  | [] => 0
  | x :: t => t.foldl max x

/-- Smallest element of a rational list (`min(l)`, junk 0 on `[]`). -/
def listMin : List ℚ → ℚ
  | [] => 0
  | x :: t => t.foldl min x

/-- `statistics.mean` (junk on `[]`; every use in the code is guarded). -/
def qMean (l : List ℚ) : ℚ := l.sum / (l.length : ℚ)

/-- Ascending insertion. -/
def insertAscQ (a : ℚ) : List ℚ → List ℚ
  | [] => [a]
  | b :: t => if a ≤ b then a :: b :: t else b :: insertAscQ a t

/-- Ascending insertion sort. -/
def sortAscQ : List ℚ → List ℚ
  | [] => []
  | a :: t => insertAscQ a (sortAscQ t)

/-- `statistics.median`: middle element, or mean of the two middles. -/
def qMedian (l : List ℚ) : ℚ :=
  let s := sortAscQ l
  let n := s.length
  if n = 0 then 0
  else if n % 2 = 1 then s.getD (n / 2) 0
  else (s.getD (n / 2 - 1) 0 + s.getD (n / 2) 0) / 2

/-- Round half to even, the model of Python's `round` (which operates on
binary floats; ties are modelled exactly on rationals). -/
def rhe (q : ℚ) : ℤ :=
  let f := qFloor q
  let r := q - (f : ℚ)
  if r < 1/2 then f
  else if 1/2 < r then f + 1
  else if f % 2 = 0 then f else f + 1

/-- `round(q, d)`. -/
def roundTo (d : Nat) (q : ℚ) : ℚ := (rhe (q * (10 ^ d : ℚ)) : ℚ) / (10 ^ d : ℚ)

/- ===== Benchmark data model ===== -/

/-- `patterns["optimal_length"]` once populated. -/
structure OptimalLength where
  min : ℚ
  max : ℚ
  avg : ℚ
  median : ℚ
deriving DecidableEq

/-- `patterns["best_timing"]`: the two keys are written independently
(`none` models an absent key). -/
structure BestTiming where
  peak_hours : Option (List Int)
  peak_days : Option (List String)
deriving DecidableEq

/-- One entry of the `patterns["hooks"]` histogram. -/
structure HookCat where
  type : String
  count : Nat
  examples : List String
deriving DecidableEq

/-- `patterns["common_styles"]`.  The Python expression
`Counter(...).most_common(1)[0][0]` would raise `IndexError` when every
style value is falsy; that unreachable-through-the-API path is modelled by
`Option.head?` returning `none`. -/
structure CommonStyles where
  vocabulary : Option String
  tone : Option String
  emoji : Option String
deriving DecidableEq

/-- The `patterns` dictionary of a benchmark (`none` = key absent or `{}`). -/
structure BenchPatterns where
  hooks : List HookCat
  structures : List String
  optimal_length : Option OptimalLength
  best_timing : BestTiming
  top_topics : List String
  engagement_drivers : List String
  common_styles : Option CommonStyles
deriving DecidableEq

/-- The `style` sub-dictionary of a top-account entry
(`_create_account_entry` always fills these with strings, defaulting to
`"unknown"`/`0`/`[]`). -/
structure AccountStyle where
  vocabulary_level : String
  tone_energy : String
  emoji_style : String
  sentence_style : String
  avg_post_length : ℚ
  peak_hours : List Int
  peak_days : List String
deriving DecidableEq

/-- A `top_accounts` entry, restricted to the fields `_recalculate_patterns`
reads (`top_posts` keeps only each post's `content`). -/
structure AccountEntry where
  style : AccountStyle
  topics : List String
  top_posts : List String
  engagement_rate : ℚ
  followers : PyVal
deriving DecidableEq

/-- A `viral_posts` entry, restricted to the fields the recomputation reads:
the stored content and the `hook`/`word_count` of its `analyze_viral_post`
analysis (the metric/url/author fields never influence `patterns`). -/
structure ViralPost where
  content : String
  hook : Option String
  word_count : Nat
deriving DecidableEq

/-- `aggregated_metrics` once populated. -/
structure AggMetrics where
  avg_engagement_rate : ℚ
  avg_followers : ℚ
  total_accounts : Nat
  total_viral_posts : Nat
deriving DecidableEq

/-- The mutable state of a `BenchmarkManager` (`self.data`). -/
structure BenchState where
  top_accounts : List AccountEntry
  viral_posts : List ViralPost
  patterns : BenchPatterns
  aggregated_metrics : Option AggMetrics
deriving DecidableEq

/-- `BenchmarkManager._extract_hook`. -/
def extractHook (content : String) : Option String :=
  let c := pyStrip content
  let fl := pyStrip (beforeNL c)
  if 10 < fl.length then some (takeStr fl 150)
  else
    let s0 := beforeSentChar c
    if 10 < s0.length then some (takeStr (pyStrip s0) 150)
    else none

/-- The `hook` field computed by `analyze_viral_post`:
`first_line[:150] if first_line else None`. -/
def viralHook (content : String) : Option String :=
  let fl := pyStrip (beforeNL content)
  if fl.isEmpty then none else some (takeStr fl 150)

/-- The seven patterns of `_categorize_hooks`, in dict order. -/
def hookCatPatterns : List (String × (String → Bool)) :=
  [("question", fun h => h.data.any (fun c => c = '?')),
   ("number", fun h =>
      match h.data with
      | c :: t =>
        c.isDigit || (c = '$' && (match t with
          | d :: _ => d.isDigit || d = ','
          | [] => false))
      | [] => false),
   ("bold_claim", fun h =>
      startsWithAny (lowerS h) ["the", "this", "i", "we", "everyone", "nobody", "never", "always"]),
   ("controversy", fun h =>
      containsAny (lowerS h) ["wrong", "mistake", "lie", "truth", "secret", "hidden"]),
   ("personal", fun h => startsWithAny (lowerS h) ["i ", "my ", "we ", "our "]),
   ("how_to", fun h => containsAny (lowerS h) ["how to", sHeresHow, "step"]),
   ("list", fun h => startsDigitsThen h ['.'])]

/-- First matching category for a hook string (the loop `break`s). -/
def firstHookCat (h : String) : Option String :=
  (hookCatPatterns.find? (fun p => p.2 h)).map Prod.fst

/-- Increment a category tally, keeping at most 3 examples. -/
def bumpHookCat : List (String × Nat × List String) → String → String → List (String × Nat × List String)
  | [], ty, h => [(ty, 1, [h])]
  | (t, c, ex) :: rest, ty, h =>
    if t = ty then (t, c + 1, if ex.length < 3 then ex ++ [h] else ex) :: rest
    else (t, c, ex) :: bumpHookCat rest ty h

/-- `BenchmarkManager._categorize_hooks`. -/
def categorize_hooks (hooks : List String) : List HookCat :=
  let tallies := hooks.foldl
    (fun st h => match firstHookCat h with
      | some ty => bumpHookCat st ty h
      | none => st) []
  (stableSortDesc (fun p => p.2.1) tallies).map (fun p => ⟨p.1, p.2.1, p.2.2⟩)

/-- `all_lengths` of `_recalculate_patterns`: account average lengths in
order, then viral-post word counts in order. -/
def allLengthsAV (accounts : List AccountEntry) (virals : List ViralPost) : List ℚ :=
  accounts.map (fun a => a.style.avg_post_length) ++
    virals.map (fun v => (v.word_count : ℚ))

/-- `all_hooks` of `_recalculate_patterns`: hooks extracted from each
account's first five top posts, then the truthy viral-post hooks. -/
def allHooksAV (accounts : List AccountEntry) (virals : List ViralPost) : List String :=
  (accounts.flatMap (fun a =>
    ((a.top_posts.take 5).filter (fun c => !c.isEmpty)).filterMap
      (fun c =>
        match extractHook c with
        | some h => if h.isEmpty then none else some h
        | none => none))) ++
  virals.filterMap (fun v =>
    match v.hook with
    | some h => if h.isEmpty then none else some h
    | none => none)

/-- The `optimal_length` record computed from a nonempty `all_lengths`. -/
def optimalLengthOf (allLengths : List ℚ) : OptimalLength :=
  let anyPos := allLengths.any (fun l => decide (0 < l))
  let positives := allLengths.filter (fun l => decide (0 < l))
  { min := if anyPos then listMin positives else 0
    max := listMax allLengths
    avg := if anyPos then roundTo 1 (qMean positives) else 0
    median := if anyPos then roundTo 1 (qMedian positives) else 0 }

/-- The `patterns`-rewriting pass of `_recalculate_patterns`: every derived
key is fully recomputed from the entry collections; a key whose source list
is empty keeps its previous value. -/
def patternsUpdate (accounts : List AccountEntry) (virals : List ViralPost)
    (p : BenchPatterns) : BenchPatterns :=
  let allLengths := allLengthsAV accounts virals
  let allTopics := accounts.flatMap (fun a => a.topics)
  let allHours := accounts.flatMap (fun a => a.style.peak_hours)
  let allDays := accounts.flatMap (fun a => a.style.peak_days)
  let allStyles := accounts.map (fun a => a.style)
  let allHooks := allHooksAV accounts virals
  { hooks := if allHooks.isEmpty then p.hooks else categorize_hooks allHooks
    structures := p.structures
    optimal_length :=
      if allLengths.isEmpty then p.optimal_length else some (optimalLengthOf allLengths)
    best_timing :=
      { peak_hours := if allHours.isEmpty then p.best_timing.peak_hours
          else some (most_common 3 allHours)
        peak_days := if allDays.isEmpty then p.best_timing.peak_days
          else some (most_common 3 allDays) }
    top_topics := if allTopics.isEmpty then p.top_topics else most_common 10 allTopics
    engagement_drivers := p.engagement_drivers
    common_styles :=
      if allStyles.isEmpty then p.common_styles
      else some
        { vocabulary :=
            (most_common 1 ((allStyles.map (fun st => st.vocabulary_level)).filter
              (fun v => !v.isEmpty))).head?
          tone :=
            (most_common 1 ((allStyles.map (fun st => st.tone_energy)).filter
              (fun v => !v.isEmpty))).head?
          emoji :=
            (most_common 1 ((allStyles.map (fun st => st.emoji_style)).filter
              (fun v => !v.isEmpty))).head? } }

/-- The `aggregated_metrics`-rewriting pass of `_recalculate_patterns`. -/
def aggMetricsUpdate (accounts : List AccountEntry) (virals : List ViralPost)
    (m : Option AggMetrics) : Option AggMetrics :=
  if accounts.isEmpty then m
  else some
    { avg_engagement_rate := roundTo 4 (qMean (accounts.map (fun a => a.engagement_rate)))
      avg_followers := roundTo 0 (qMean (accounts.map
        (fun a => (parse_metric a.followers : ℚ))))
      total_accounts := accounts.length
      total_viral_posts := virals.length }

/-- `BenchmarkManager._recalculate_patterns`: a full rebuild of the derived
`patterns` and `aggregated_metrics` from the current entry collections. -/
def recalculate_patterns (s : BenchState) : BenchState :=
  { s with
    patterns := patternsUpdate s.top_accounts s.viral_posts s.patterns
    aggregated_metrics := aggMetricsUpdate s.top_accounts s.viral_posts s.aggregated_metrics }

/-- `BenchmarkManager.add_viral_post`: append the new entry (with its
`analyze_viral_post` analysis) and recompute all patterns.  The `save()`
call is file I/O and outside the model. -/
def add_viral_post (s : BenchState) (content : String) : BenchState :=
  recalculate_patterns
    { s with viral_posts := s.viral_posts ++
        [{ content := content, hook := viralHook content, word_count := wordCount content }] }

/- ===== Scoring engine (`engagement/scoring.py`) ===== -/

/-- `max(0, min(100, x))`, the clamp applied by both scoring functions. -/
def pyClamp (x : ℚ) : ℚ := max 0 (min 100 x)

/-- A user voice profile as read by `score_reply` (`voice.get(key, default)`;
`none` models an absent key). -/
structure VoiceProfile where
  tone : Option String
  vocabulary : Option String
  signature_phrases : Option (List String)
  formality : Option String
  emoji_style : Option String
  sentence_length : Option String
deriving DecidableEq

/-- The emoji character class
`[\U0001F600-\U0001F64F\U0001F300-\U0001F5FF\U0001F680-\U0001F6FF]`. -/
def isEmojiChar (c : Char) : Bool :=
  (0x1F600 ≤ c.toNat && c.toNat ≤ 0x1F64F) ||
  (0x1F300 ≤ c.toNat && c.toNat ≤ 0x1F5FF) ||
  (0x1F680 ≤ c.toNat && c.toNat ≤ 0x1F6FF)

/-- `len(re.findall(emoji_class, text))`. -/
def emojiCount (s : String) : Nat := (s.data.filter isEmojiChar).length

/-- `calculate_voice_match`: starts at 50, adjusts for tone markers,
vocabulary fit, signature phrases, contractions, emoji style and sentence
style, clamps to `[0, 100]`. -/
def calculate_voice_match (text : String) (voice : VoiceProfile) : ℚ :=
  let text_lower := lowerS text
  let words := pySplitWs text
  let score : ℚ := 50
  let tone := voice.tone.getD "professional"
  let score :=
    if tone = "professional" then
      let markers := ["data", "suggest", "indicate", "perspective", "context",
        "positioning", "setup", "level", "watch", "monitor"]
      let nMatch := (markers.filter (fun m => containsSub text_lower m)).length
      let score := score + min ((nMatch : ℚ) * 3) 15
      let casual := ["lol", "lmao", "tbh", "ngl", "bruh", "bro"]
      let cc := (casual.filter (fun m => containsSub text_lower m)).length
      score - (cc : ℚ) * 5
    else if tone = "casual" then
      let markers := ["pretty", "kinda", "yeah", "cool", "nice"]
      let nMatch := (markers.filter (fun m => containsSub text_lower m)).length
      score + min ((nMatch : ℚ) * 3) 15
    else score
  let vocab := voice.vocabulary.getD "professional"
  let awl : ℚ := ((words.map String.length).sum : ℚ) / (max words.length 1 : ℚ)
  let score :=
    if vocab = "professional" then
      if 5 ≤ awl ∧ awl ≤ 7 then score + 10
      else if 7 < awl then score + 5
      else score
    else if vocab = "simple" then
      if awl ≤ 5 then score + 10 else score
    else score
  let sigs := voice.signature_phrases.getD []
  let score := score + 8 * ((sigs.filter (fun p => containsSub text_lower (lowerS p))).length : ℚ)
  let formality := voice.formality.getD "balanced"
  let contractions := [sDont, sCant, sWont, sIsnt, sArent, sIts, sThats]
  let ccount := (contractions.filter (fun c => containsSub text_lower c)).length
  let score :=
    if formality = "formal" then score - (ccount : ℚ) * 2
    else if formality = "casual" then score + (ccount : ℚ) * 2
    else score
  let emoji_style := voice.emoji_style.getD "minimal"
  let ec := emojiCount text
  let score :=
    if emoji_style = "minimal" then
      if ec = 0 then score + 5 else score - (ec : ℚ) * 3
    else if emoji_style = "light" then
      if ec = 1 then score + 5
      else if 2 < ec then score - ((ec : ℚ) - 2) * 3
      else score
    else score
  let sentence_style := voice.sentence_length.getD "concise"
  let nonEmptySent := ((pySentSplit text).filter (fun s => !(pyStrip s).isEmpty)).length
  let asw : ℚ := (words.length : ℚ) / (max nonEmptySent 1 : ℚ)
  let score :=
    if sentence_style = "concise" then
      if asw ≤ 12 then score + 10
      else if 20 < asw then score - 5
      else score
    else score
  pyClamp score

/-- `calculate_engagement_potential`: starts at 50, adds hook/length/trigger/
detail/readability/call-to-action bonuses, clamps to `[0, 100]`. -/
def calculate_engagement_potential (text : String) (patterns : BenchPatterns) : ℚ :=
  let text_lower := lowerS text
  let words := pySplitWs text
  let score : ℚ := 50
  let fs := pyStrip (beforeSentChar text)
  let score := if fs.data.any (fun c => c = '?') then score + 10 else score
  let score :=
    if (match fs.data with | c :: _ => c.isDigit | [] => false) || digitPct fs then score + 8
    else score
  let score :=
    if startsWithAny (lowerS fs) ["i ", "my ", sIve, sIm] then score + 5 else score
  let score :=
    if startsWithAny (lowerS fs) ["this is", "the key", "exactly", "spot on"] then score + 7
    else score
  let target : ℚ := match patterns.optimal_length with
    | some ol => ol.avg
    | none => 26
  let length_diff := |(words.length : ℚ) - target|
  let score :=
    if length_diff ≤ 5 then score + 15
    else if length_diff ≤ 10 then score + 8
    else if 15 < length_diff then score - 10
    else score
  let engagement_triggers := ["key", "important", "watch", "signal", "data", "shows",
    "this is", sHeres, "notice", "look at", "the real", "actually", "truth",
    "most people", "few understand"]
  let tc := (engagement_triggers.filter (fun t => containsSub text_lower t)).length
  let score := score + min ((tc : ℚ) * 4) 15
  let score := if hasDigit text then score + 5 else score
  let score := if dollarTicker text then score + 5 else score
  let sentences := ((pySentSplit text).map pyStrip).filter (fun s => !s.isEmpty)
  let score :=
    if sentences.isEmpty then score
    else
      let asl : ℚ := (words.length : ℚ) / (sentences.length : ℚ)
      if asl ≤ 12 then score + 10
      else if 20 < asl then score - 5
      else score
  let cta := ["what do you", "thoughts?", "agree?", "how about", "curious"]
  let score := if cta.any (fun p => containsSub text_lower p) then score + 8 else score
  pyClamp score

/-- `calculate_length_score`: the tiered length falloff. -/
def calculate_length_score (text : String) (target : ℤ) : ℚ :=
  let word_count : ℤ := wordCount text
  if word_count = target then 100
  else
    let diff := |word_count - target|
    if diff ≤ 3 then 95
    else if diff ≤ 5 then 85
    else if diff ≤ 10 then 70
    else if diff ≤ 15 then 50
    else ((max 20 (100 - diff * 3) : ℤ) : ℚ)

/-- The four scores returned by `score_reply`.  The source additionally
applies `round(x, 1)` for display; the model keeps the exact values. -/
structure ReplyScores where
  voice_match : ℚ
  engagement_potential : ℚ
  length_score : ℚ
  combined_score : ℚ
deriving DecidableEq

/-- `score_reply`: the three component scores and their weighted blend
`0.35·voice + 0.45·engagement + 0.20·length`. -/
def score_reply (text : String) (voice : VoiceProfile) (patterns : BenchPatterns)
    (target_length : ℤ) : ReplyScores :=
  let v := calculate_voice_match text voice
  let e := calculate_engagement_potential text patterns
  let l := calculate_length_score text target_length
  { voice_match := v
    engagement_potential := e
    length_score := l
    combined_score := v * (35/100) + e * (45/100) + l * (20/100) }

/- ===== Reply generator (`engagement/reply_generator.py`) ===== -/

/-- `ReplyGenerator._detect_sentiment`. -/
def detect_sentiment (content : String) : String :=
  let lc := lowerS content
  let bullish := ["bull", "long", "buy", "calls", "breakout", "support", "higher", "rally", "green"]
  let bearish := ["bear", "short", "sell", "puts", "breakdown", "resistance", "lower", "crash", "red"]
  let bc := (bullish.filter (fun w => containsSub lc w)).length
  let rc := (bearish.filter (fun w => containsSub lc w)).length
  if bc > rc then "bullish" else if rc > bc then "bearish" else "neutral"

/-- The topic keyword families of `_extract_topics`, in dict order. -/
def topicKeywords : List (String × List String) :=
  [("options", ["options", "calls", "puts", "premium", "strike", "expiry"]),
   ("gamma", ["gamma", "gex", "delta", "hedging"]),
   ("flow", ["flow", "dark pool", "unusual", "sweep", "block"]),
   ("technicals", ["support", "resistance", "breakout", "trend", "chart"]),
   ("volatility", ["vix", "iv", "volatility", "vol"]),
   ("market", ["spx", "spy", "qqq", "market", "index"])]

/-- `ReplyGenerator._extract_topics`. -/
def extract_topics (content : String) : List String :=
  let lc := lowerS content
  (topicKeywords.filter (fun p => p.2.any (fun kw => containsSub lc kw))).map Prod.fst

/-- `ReplyGenerator._extract_key_points`. -/
def extract_key_points (content : String) : List String :=
  (((pySentSplit content).map pyStrip).filter (fun s => 10 < s.length)).take 3

/-- The analysis dict built by `ReplyGenerator._analyze_post`. -/
structure PostAnalysis where
  word_count : Nat
  has_question : Bool
  has_numbers : Bool
  has_ticker : Bool
  sentiment : String
  topics : List String
  key_points : List String
deriving DecidableEq

/-- `ReplyGenerator._analyze_post`. -/
def analyze_post (content : String) : PostAnalysis :=
  { word_count := wordCount content
    has_question := content.data.any (fun c => c = '?')
    has_numbers := hasDigit content
    has_ticker := dollarTicker content
    sentiment := detect_sentiment content
    topics := extract_topics content
    key_points := extract_key_points content }

/-- `ReplyGenerator._suggest_reply_types`: builds the candidate strategy
list by appending per-signal suggestions, guarantees insight/question/agree
are present, then truncates to 5. -/
def suggest_reply_types (a : PostAnalysis) : List String :=
  let types : List String := []
  let types := if a.has_question then types ++ ["answer", "insight"] else types
  let types :=
    if a.sentiment = "bullish" || a.sentiment = "bearish" then types ++ ["agree", "nuance"]
    else types
  let types :=
    if a.has_numbers || a.topics.contains "gamma" then types ++ ["insight", "question"]
    else types
  let types := if types.contains "insight" then types else types ++ ["insight"]
  let types := if types.contains "question" then types else types ++ ["question"]
  let types := if types.contains "agree" then types else types ++ ["agree"]
  types.take 5

/-- `ReplyGenerator._adjust_length`.  The too-short branch calls
`_expand_reply`, which draws phrases with `random.choice`; it is abstracted
as the function parameter `expand`, and the properties of the other two
branches hold for every choice of it. -/
def adjust_length (expand : String → String) (text : String) (target_words : ℤ) : String :=
  let words := pySplitWs text
  let current : ℤ := words.length
  if current > target_words + 5 then
    let t := joinSpace (pySliceTo words target_words)
    if endsWithPunct t then t else t ++ "."
  else if current < target_words - 3 then expand text
  else text

/-- The end-to-end scenario text of the specification. -/
def c1Text : String :=
  "Why does nobody talk about gamma exposure before OPEX? $50B notional flips at this level."

/-- Append a `'.'` to the last word of a word list: the shape of the
truncation result when terminal punctuation is added. -/
def appendDotLastL : List (List Char) → List (List Char)
  | [] => []
  | [w] => [w ++ ['.']]
  | w :: t => w :: appendDotLastL t

/- ===== Helper lemmas ===== -/

theorem pyClamp_nonneg (x : ℚ) : 0 ≤ pyClamp x := le_max_left 0 _

theorem pyClamp_le_hundred (x : ℚ) : pyClamp x ≤ 100 :=
  max_le (by norm_num) (min_le_left _ _)

/- ===== C2 ===== -/

/-- C2: for every input text, the analyzer's specificity is "concrete" iff at
least 3 of the 4 boolean specificity signals are true, "moderate" iff at
least 1 but fewer than 3 are true, and "vague" iff none are true. -/
theorem c2_specificity_threshold (content platform : String) :
    ((analyze content platform).specificity = "concrete" ↔
      3 ≤ specificitySignalCount content) ∧
    ((analyze content platform).specificity = "moderate" ↔
      (1 ≤ specificitySignalCount content ∧ specificitySignalCount content < 3)) ∧
    ((analyze content platform).specificity = "vague" ↔
      specificitySignalCount content = 0) := by
  have h : (analyze content platform).specificity =
      (if specificitySignalCount content ≥ 3 then "concrete"
       else if specificitySignalCount content ≥ 1 then "moderate" else "vague") := rfl
  rw [h]
  by_cases h3 : specificitySignalCount content ≥ 3
  · rw [if_pos h3]
    exact ⟨iff_of_true rfl h3, iff_of_false (by decide) (by omega),
      iff_of_false (by decide) (by omega)⟩
  · rw [if_neg h3]
    by_cases h1 : specificitySignalCount content ≥ 1
    · rw [if_pos h1]
      exact ⟨iff_of_false (by decide) (by omega), iff_of_true rfl (by omega),
        iff_of_false (by decide) (by omega)⟩
    · rw [if_neg h1]
      exact ⟨iff_of_false (by decide) (by omega), iff_of_false (by decide) (by omega),
        iff_of_true rfl (by omega)⟩

/-- C2 witness: a text with all four signals ("$SPY" ticker, "$5" money,
"e.g." example, digits) is concrete; instantiates the theorem. -/
theorem c2_witness :
    ((analyze "e.g. $SPY moved 5% on data" "twitter").specificity = "concrete" ↔
      3 ≤ specificitySignalCount "e.g. $SPY moved 5% on data") ∧
    ((analyze "e.g. $SPY moved 5% on data" "twitter").specificity = "moderate" ↔
      (1 ≤ specificitySignalCount "e.g. $SPY moved 5% on data" ∧
        specificitySignalCount "e.g. $SPY moved 5% on data" < 3)) ∧
    ((analyze "e.g. $SPY moved 5% on data" "twitter").specificity = "vague" ↔
      specificitySignalCount "e.g. $SPY moved 5% on data" = 0) :=
  c2_specificity_threshold "e.g. $SPY moved 5% on data" "twitter"

/- ===== C4 ===== -/

/-- C4: for every text, voice profile, benchmark patterns and target, the
voice, engagement and length scores lie in `[0, 100]`; the combined score
equals `0.35·voice + 0.45·engagement + 0.20·length` and lies in `[0, 100]`;
and the length score follows the tiered falloff (exact match 100,
`|diff| ≤ 3 → 95`, `≤ 5 → 85`, `≤ 10 → 70`, `≤ 15 → 50`, else
`max(20, 100 − 3·|diff|)`). -/
theorem c4_scoring_bounds (text : String) (voice : VoiceProfile)
    (patterns : BenchPatterns) (target : ℤ) :
    (0 ≤ calculate_voice_match text voice ∧ calculate_voice_match text voice ≤ 100) ∧
    (0 ≤ calculate_engagement_potential text patterns ∧
      calculate_engagement_potential text patterns ≤ 100) ∧
    (0 ≤ calculate_length_score text target ∧ calculate_length_score text target ≤ 100) ∧
    (score_reply text voice patterns target).combined_score =
      calculate_voice_match text voice * (35/100) +
        calculate_engagement_potential text patterns * (45/100) +
        calculate_length_score text target * (20/100) ∧
    (0 ≤ (score_reply text voice patterns target).combined_score ∧
      (score_reply text voice patterns target).combined_score ≤ 100) ∧
    ((wordCount text : ℤ) = target → calculate_length_score text target = 100) ∧
    ((wordCount text : ℤ) ≠ target → |(wordCount text : ℤ) - target| ≤ 3 →
      calculate_length_score text target = 95) ∧
    (3 < |(wordCount text : ℤ) - target| → |(wordCount text : ℤ) - target| ≤ 5 →
      calculate_length_score text target = 85) ∧
    (5 < |(wordCount text : ℤ) - target| → |(wordCount text : ℤ) - target| ≤ 10 →
      calculate_length_score text target = 70) ∧
    (10 < |(wordCount text : ℤ) - target| → |(wordCount text : ℤ) - target| ≤ 15 →
      calculate_length_score text target = 50) ∧
    (15 < |(wordCount text : ℤ) - target| →
      calculate_length_score text target =
        ((max 20 (100 - |(wordCount text : ℤ) - target| * 3) : ℤ) : ℚ)) := by
  have hv : 0 ≤ calculate_voice_match text voice ∧ calculate_voice_match text voice ≤ 100 := by
    unfold calculate_voice_match
    exact ⟨pyClamp_nonneg _, pyClamp_le_hundred _⟩
  have he : 0 ≤ calculate_engagement_potential text patterns ∧
      calculate_engagement_potential text patterns ≤ 100 := by
    unfold calculate_engagement_potential
    exact ⟨pyClamp_nonneg _, pyClamp_le_hundred _⟩
  have habs : 0 ≤ |(wordCount text : ℤ) - target| := abs_nonneg _
  have hcls : calculate_length_score text target =
      (if (wordCount text : ℤ) = target then (100 : ℚ)
       else if |(wordCount text : ℤ) - target| ≤ 3 then 95
       else if |(wordCount text : ℤ) - target| ≤ 5 then 85
       else if |(wordCount text : ℤ) - target| ≤ 10 then 70
       else if |(wordCount text : ℤ) - target| ≤ 15 then 50
       else ((max 20 (100 - |(wordCount text : ℤ) - target| * 3) : ℤ) : ℚ)) := rfl
  have hl : 0 ≤ calculate_length_score text target ∧ calculate_length_score text target ≤ 100 := by
    rw [hcls]
    split_ifs <;> constructor <;> norm_num
  have hcomb : (score_reply text voice patterns target).combined_score =
      calculate_voice_match text voice * (35/100) +
        calculate_engagement_potential text patterns * (45/100) +
        calculate_length_score text target * (20/100) := rfl
  refine ⟨hv, he, hl, hcomb, ⟨?_, ?_⟩, ?_, ?_, ?_, ?_, ?_, ?_⟩
  · rw [hcomb]; nlinarith [hv.1, he.1, hl.1]
  · rw [hcomb]; nlinarith [hv.2, he.2, hl.2]
  · intro h0; rw [hcls, if_pos h0]
  · intro h0 h3; rw [hcls, if_neg h0, if_pos h3]
  · intro h3 h5
    rw [hcls, if_neg (fun h0 => by rw [h0, sub_self, abs_zero] at h3; exact absurd h3 (by norm_num)),
      if_neg (by omega), if_pos h5]
  · intro h5 h10
    rw [hcls, if_neg (fun h0 => by rw [h0, sub_self, abs_zero] at h5; exact absurd h5 (by norm_num)),
      if_neg (by omega), if_neg (by omega), if_pos h10]
  · intro h10 h15
    rw [hcls, if_neg (fun h0 => by rw [h0, sub_self, abs_zero] at h10; exact absurd h10 (by norm_num)),
      if_neg (by omega), if_neg (by omega), if_neg (by omega), if_pos h15]
  · intro h15
    rw [hcls, if_neg (fun h0 => by rw [h0, sub_self, abs_zero] at h15; exact absurd h15 (by norm_num)),
      if_neg (by omega), if_neg (by omega), if_neg (by omega), if_neg (by omega)]

/-- C4 witness: the scoring bounds instantiated at a concrete reply. -/
theorem c4_witness :
    (0 ≤ calculate_voice_match "Key level to watch here." ⟨none, none, none, none, none, none⟩ ∧
      calculate_voice_match "Key level to watch here." ⟨none, none, none, none, none, none⟩ ≤ 100) ∧
    (0 ≤ calculate_engagement_potential "Key level to watch here."
        ⟨[], [], none, ⟨none, none⟩, [], [], none⟩ ∧
      calculate_engagement_potential "Key level to watch here."
        ⟨[], [], none, ⟨none, none⟩, [], [], none⟩ ≤ 100) ∧
    (0 ≤ calculate_length_score "Key level to watch here." 26 ∧
      calculate_length_score "Key level to watch here." 26 ≤ 100) ∧
    (score_reply "Key level to watch here." ⟨none, none, none, none, none, none⟩
        ⟨[], [], none, ⟨none, none⟩, [], [], none⟩ 26).combined_score =
      calculate_voice_match "Key level to watch here." ⟨none, none, none, none, none, none⟩ * (35/100) +
        calculate_engagement_potential "Key level to watch here."
          ⟨[], [], none, ⟨none, none⟩, [], [], none⟩ * (45/100) +
        calculate_length_score "Key level to watch here." 26 * (20/100) ∧
    (0 ≤ (score_reply "Key level to watch here." ⟨none, none, none, none, none, none⟩
        ⟨[], [], none, ⟨none, none⟩, [], [], none⟩ 26).combined_score ∧
      (score_reply "Key level to watch here." ⟨none, none, none, none, none, none⟩
        ⟨[], [], none, ⟨none, none⟩, [], [], none⟩ 26).combined_score ≤ 100) ∧
    ((wordCount "Key level to watch here." : ℤ) = 26 →
      calculate_length_score "Key level to watch here." 26 = 100) ∧
    ((wordCount "Key level to watch here." : ℤ) ≠ 26 →
      |(wordCount "Key level to watch here." : ℤ) - 26| ≤ 3 →
      calculate_length_score "Key level to watch here." 26 = 95) ∧
    (3 < |(wordCount "Key level to watch here." : ℤ) - 26| →
      |(wordCount "Key level to watch here." : ℤ) - 26| ≤ 5 →
      calculate_length_score "Key level to watch here." 26 = 85) ∧
    (5 < |(wordCount "Key level to watch here." : ℤ) - 26| →
      |(wordCount "Key level to watch here." : ℤ) - 26| ≤ 10 →
      calculate_length_score "Key level to watch here." 26 = 70) ∧
    (10 < |(wordCount "Key level to watch here." : ℤ) - 26| →
      |(wordCount "Key level to watch here." : ℤ) - 26| ≤ 15 →
      calculate_length_score "Key level to watch here." 26 = 50) ∧
    (15 < |(wordCount "Key level to watch here." : ℤ) - 26| →
      calculate_length_score "Key level to watch here." 26 =
        ((max 20 (100 - |(wordCount "Key level to watch here." : ℤ) - 26| * 3) : ℤ) : ℚ)) :=
  c4_scoring_bounds "Key level to watch here." ⟨none, none, none, none, none, none⟩
    ⟨[], [], none, ⟨none, none⟩, [], [], none⟩ 26

/- ===== C9 ===== -/

/-- The candidate list for any analysis record is at most 5 long and always
offers one of insight/question/agree (the guard appends run before the
truncation, and in every branch one of the three lands within the first
five positions). -/
theorem suggest_reply_types_spec (a : PostAnalysis) :
    (suggest_reply_types a).length ≤ 5 ∧
    ("insight" ∈ suggest_reply_types a ∨ "question" ∈ suggest_reply_types a ∨
      "agree" ∈ suggest_reply_types a) := by
  obtain ⟨wc, hq, hn, htk, snt, tps, kps⟩ := a
  unfold suggest_reply_types
  simp only
  cases hq <;>
    rcases Bool.eq_false_or_eq_true
        (decide (snt = "bullish") || decide (snt = "bearish")) with hs | hs <;>
    rcases Bool.eq_false_or_eq_true (hn || tps.contains "gamma") with hg | hg <;>
    simp only [hs, hg, if_true, if_false, Bool.false_eq_true, List.nil_append,
      List.cons_append, List.append_nil] <;>
    decide

/-- C9 (corrected: the list need not be duplicate-free): automatic strategy
selection always returns at most `5` candidates and at least one of
insight, question or agree among them. -/
theorem c9_strategy_selection (content : String) :
    (suggest_reply_types (analyze_post content)).length ≤ 5 ∧
    ("insight" ∈ suggest_reply_types (analyze_post content) ∨
      "question" ∈ suggest_reply_types (analyze_post content) ∨
      "agree" ∈ suggest_reply_types (analyze_post content)) :=
  suggest_reply_types_spec (analyze_post content)

/-- C9 counterexample to deduplication: a question containing a digit makes
both the question branch and the numbers branch append "insight", so the
returned list holds it twice. -/
theorem c9_counterexample :
    (suggest_reply_types (analyze_post "Is 5 the level?")).count "insight" = 2 ∧
    ¬ (suggest_reply_types (analyze_post "Is 5 the level?")).Nodup := by
  decide

/- ===== C10 ===== -/

theorem data_append (a b : String) : (a ++ b).data = a.data ++ b.data := rfl

theorem endsWithStr_concat_self (w : String) (c : Char) :
    endsWithStr (w ++ ⟨[c]⟩) ⟨[c]⟩ = true := by
  show isPrefixL [c].reverse (w.data ++ [c]).reverse = true
  simp [isPrefixL]

theorem endsWithStr_concat_ne (w : String) (c d : Char) (h : d ≠ c) :
    endsWithStr (w ++ ⟨[c]⟩) ⟨[d]⟩ = false := by
  show isPrefixL [d].reverse (w.data ++ [c]).reverse = false
  simp [isPrefixL, h]

theorem dropRightStr_concat (w : String) (c : Char) :
    dropRightStr (w ++ ⟨[c]⟩) 1 = w := by
  show (⟨(w.data ++ [c]).take ((w.data ++ [c]).length - 1)⟩ : String) = w
  simp

theorem concat_ne_short (w : String) (c : Char) (h0 : c ≠ '0') :
    (decide (w ++ ⟨[c]⟩ = "") || decide (w ++ ⟨[c]⟩ = "0")) = false := by
  simp only [Bool.or_eq_false_iff, decide_eq_false_iff_not]
  constructor
  · intro he
    have : (w ++ ⟨[c]⟩).data = ("" : String).data := congrArg String.data he
    rw [data_append] at this
    simp at this
  · intro he
    have : (w.data ++ [c]).reverse = ("0" : String).data.reverse :=
      congrArg (fun s => s.data.reverse) he
    simp at this
    exact h0 this.1

/-- C10: `_parse_metric` never raises and always returns an integer:
ints pass through unchanged, `K`/`M`/`B`-suffixed strings scale their float
prefix by `10^3`/`10^6`/`10^9` (truncated to int), comma-separated numeric
strings parse after comma removal, and every unparseable string as well as
every non-int/non-string value yields 0.  (`v` below is the stripped,
uppercased input, exactly as in the source.) -/
theorem c10_parse_metric :
    (∀ n : ℤ, parse_metric (.int n) = n) ∧
    (∀ q : ℚ, parse_metric (.float q) = 0) ∧
    (parse_metric .null = 0) ∧
    (∀ (s w : String) (q : ℚ), upperS (pyStrip s) = w ++ "K" →
      pyFloatOpt w = some q → parse_metric (.str s) = ratTrunc (q * 1000)) ∧
    (∀ (s w : String) (q : ℚ), upperS (pyStrip s) = w ++ "M" →
      pyFloatOpt w = some q → parse_metric (.str s) = ratTrunc (q * 1000000)) ∧
    (∀ (s w : String) (q : ℚ), upperS (pyStrip s) = w ++ "B" →
      pyFloatOpt w = some q → parse_metric (.str s) = ratTrunc (q * 1000000000)) ∧
    (∀ (s : String) (n : ℤ), endsWithStr (upperS (pyStrip s)) "K" = false →
      endsWithStr (upperS (pyStrip s)) "M" = false →
      endsWithStr (upperS (pyStrip s)) "B" = false →
      pyIntOpt (removeCommas (upperS (pyStrip s))) = some n →
      parse_metric (.str s) = n) ∧
    (∀ s : String, endsWithStr (upperS (pyStrip s)) "K" = false →
      endsWithStr (upperS (pyStrip s)) "M" = false →
      endsWithStr (upperS (pyStrip s)) "B" = false →
      pyIntOpt (removeCommas (upperS (pyStrip s))) = none →
      parse_metric (.str s) = 0) ∧
    (∀ s w : String, upperS (pyStrip s) = w ++ "K" → pyFloatOpt w = none →
      parse_metric (.str s) = 0) ∧
    (∀ s w : String, upperS (pyStrip s) = w ++ "M" → pyFloatOpt w = none →
      parse_metric (.str s) = 0) ∧
    (∀ s w : String, upperS (pyStrip s) = w ++ "B" → pyFloatOpt w = none →
      parse_metric (.str s) = 0) := by
  have hK : ("K" : String) = ⟨['K']⟩ := rfl
  have hM : ("M" : String) = ⟨['M']⟩ := rfl
  have hB : ("B" : String) = ⟨['B']⟩ := rfl
  refine ⟨fun _ => rfl, fun _ => rfl, rfl, ?_, ?_, ?_, ?_, ?_, ?_, ?_, ?_⟩
  · intro s w q hsv hf
    show (if _ then _ else _) = _
    rw [hsv, hK, concat_ne_short w 'K' (by decide), if_neg (by simp),
      if_pos (endsWithStr_concat_self w 'K'), dropRightStr_concat, hf]
  · intro s w q hsv hf
    show (if _ then _ else _) = _
    rw [hsv, hM, concat_ne_short w 'M' (by decide), if_neg (by simp),
      if_neg (by simp [hK, endsWithStr_concat_ne w 'M' 'K' (by decide)]),
      if_pos (endsWithStr_concat_self w 'M'), dropRightStr_concat, hf]
  · intro s w q hsv hf
    show (if _ then _ else _) = _
    rw [hsv, hB, concat_ne_short w 'B' (by decide), if_neg (by simp),
      if_neg (by simp [hK, endsWithStr_concat_ne w 'B' 'K' (by decide)]),
      if_neg (by simp [hM, endsWithStr_concat_ne w 'B' 'M' (by decide)]),
      if_pos (endsWithStr_concat_self w 'B'), dropRightStr_concat, hf]
  · intro s n hk hm hb hi
    show (if _ then _ else _) = _
    by_cases hv : (decide (upperS (pyStrip s) = "") || decide (upperS (pyStrip s) = "0")) = true
    · rw [if_pos hv]
      rcases Bool.or_eq_true_iff.mp hv with h | h
      · rw [decide_eq_true_iff.mp h] at hi
        have h0 : pyIntOpt (removeCommas "") = (none : Option ℤ) := by decide
        rw [h0] at hi
        exact absurd hi (by simp)
      · rw [decide_eq_true_iff.mp h] at hi
        have h0 : pyIntOpt (removeCommas "0") = some (0 : ℤ) := by decide
        rw [h0] at hi
        exact Option.some.inj hi
    · rw [if_neg hv, if_neg (by simp [hk]), if_neg (by simp [hm]), if_neg (by simp [hb]), hi]
  · intro s hk hm hb hi
    show (if _ then _ else _) = _
    by_cases hv : (decide (upperS (pyStrip s) = "") || decide (upperS (pyStrip s) = "0")) = true
    · rw [if_pos hv]
    · rw [if_neg hv, if_neg (by simp [hk]), if_neg (by simp [hm]), if_neg (by simp [hb]), hi]
  · intro s w hsv hf
    show (if _ then _ else _) = _
    rw [hsv, hK, concat_ne_short w 'K' (by decide), if_neg (by simp),
      if_pos (endsWithStr_concat_self w 'K'), dropRightStr_concat, hf]
  · intro s w hsv hf
    show (if _ then _ else _) = _
    rw [hsv, hM, concat_ne_short w 'M' (by decide), if_neg (by simp),
      if_neg (by simp [hK, endsWithStr_concat_ne w 'M' 'K' (by decide)]),
      if_pos (endsWithStr_concat_self w 'M'), dropRightStr_concat, hf]
  · intro s w hsv hf
    show (if _ then _ else _) = _
    rw [hsv, hB, concat_ne_short w 'B' (by decide), if_neg (by simp),
      if_neg (by simp [hK, endsWithStr_concat_ne w 'B' 'K' (by decide)]),
      if_neg (by simp [hM, endsWithStr_concat_ne w 'B' 'M' (by decide)]),
      if_pos (endsWithStr_concat_self w 'B'), dropRightStr_concat, hf]

/-- C10 witness: `"1.2K"` parses to `1200` and an int passes through. -/
theorem c10_witness : parse_metric (.str "1.2K") = 1200 ∧ parse_metric (.int 7) = 7 := by
  constructor
  · rw [c10_parse_metric.2.2.2.1 "1.2K" "1.2" (6/5) (by with_unfolding_all decide)
      (by with_unfolding_all decide)]
    with_unfolding_all decide
  · exact c10_parse_metric.1 7

/- ===== C8 ===== -/

/-- Once the best strength equals the candidate strength, the scan never
replaces the running best (only strictly higher strength replaces). -/
theorem hookFold_keep (st : ℚ) (p : HookType → Bool) :
    ∀ (l : List HookType) (acc : Option HookType × ℚ), acc.2 = st →
      l.foldl (fun acc t => if p t then (if st > acc.2 then (some t, st) else acc) else acc)
        acc = acc := by
  intro l
  induction l with
  | nil => intro acc _; rfl
  | cons t ts ih =>
    intro acc h
    rw [List.foldl_cons]
    have hstep : (if p t then (if st > acc.2 then (some t, st) else acc) else acc) = acc := by
      rw [h]
      by_cases hp : p t = true <;> simp [hp]
    rw [hstep]
    exact ih acc h

/-- The greedy scan with a constant positive per-hit strength returns the
first matching element of the enumeration order. -/
theorem hookFold_find (st : ℚ) (hst : 0 < st) (p : HookType → Bool) :
    ∀ l : List HookType,
      (l.foldl (fun acc t => if p t then (if st > acc.2 then (some t, st) else acc) else acc)
        ((none : Option HookType), (0 : ℚ))).1 = l.find? p := by
  intro l
  induction l with
  | nil => rfl
  | cons t ts ih =>
    by_cases hp : p t = true
    · rw [List.foldl_cons, List.find?_cons_of_pos _ hp]
      simp only [hp, if_true, gt_iff_lt, hst, if_pos]
      rw [hookFold_keep st p ts (some t, st) rfl]
    · rw [List.foldl_cons, List.find?_cons_of_neg _ (by simp [hp])]
      simpa [hp] using ih

/-- Every matching hook gets the same strength, and it is positive. -/
theorem hookStrength_pos (hk fl : String) : 0 < hookStrength hk fl := by
  unfold hookStrength
  split_ifs <;> norm_num

/-- C8: hook detection keeps a running best replaced only by strictly higher
strength; since the computed strength for a given text is the same for every
matching hook type, the detected type is the first matching one in the fixed
`HOOK_PATTERNS` enumeration order. -/
theorem c8_hook_tie_break (content : String) (h : pyStrip (beforeNL content) ≠ "") :
    (analyze_hook content).1 =
      hookOrder.find? (fun t => hookMatches t (hookCandidate content)) := by
  unfold analyze_hook
  rw [if_neg h]
  exact hookFold_find _ (hookStrength_pos _ _) _ hookOrder

/-- C8 witness: a text matching both "question" and "bold_claim" with equal
strength resolves to "question", the earlier hook type. -/
theorem c8_witness :
    hookMatches .question (hookCandidate "The secret will change everything?") = true ∧
    hookMatches .bold_claim (hookCandidate "The secret will change everything?") = true ∧
    (analyze_hook "The secret will change everything?").1 = some .question := by
  refine ⟨by decide, by decide, ?_⟩
  rw [c8_hook_tie_break "The secret will change everything?" (by decide)]
  decide

/- ===== C6 ===== -/

/-- Rewriting `patterns` twice from the same entry collections equals
rewriting once: every key is either overwritten with a value depending only
on the entries, or left untouched. -/
theorem patternsUpdate_idem (accounts : List AccountEntry) (virals : List ViralPost)
    (p : BenchPatterns) :
    patternsUpdate accounts virals (patternsUpdate accounts virals p) =
      patternsUpdate accounts virals p := by
  simp only [patternsUpdate]
  refine BenchPatterns.mk.injEq _ _ _ _ _ _ _ _ _ _ _ _ _ _ |>.mpr ?_
  refine ⟨?_, rfl, ?_, ?_, ?_, rfl, ?_⟩ <;> split_ifs <;> rfl

/-- C6: pattern recomputation is idempotent — recomputing twice in a row
with no intervening writes to the entry collections yields an identical
`patterns` value. -/
theorem c6_recompute_idempotent (s : BenchState) :
    (recalculate_patterns (recalculate_patterns s)).patterns =
      (recalculate_patterns s).patterns :=
  patternsUpdate_idem s.top_accounts s.viral_posts s.patterns

/-- C6 witness: the idempotence equation instantiated at a concrete
benchmark state holding one viral post. -/
theorem c6_witness :
    (recalculate_patterns (recalculate_patterns
        ⟨[], [⟨"a b c", viralHook "a b c", 3⟩],
          ⟨[], [], none, ⟨none, none⟩, [], [], none⟩, none⟩)).patterns =
      (recalculate_patterns
        ⟨[], [⟨"a b c", viralHook "a b c", 3⟩],
          ⟨[], [], none, ⟨none, none⟩, [], [], none⟩, none⟩).patterns :=
  c6_recompute_idempotent
    ⟨[], [⟨"a b c", viralHook "a b c", 3⟩],
      ⟨[], [], none, ⟨none, none⟩, [], [], none⟩, none⟩

/- ===== C7 ===== -/

theorem listMax_concat_of_lt (l : List ℚ) (y : ℚ) (h : l ≠ [] → listMax l < y) :
    listMax (l ++ [y]) = y := by
  cases l with
  | nil => rfl
  | cons x t =>
    have h2 : listMax (x :: t) < y := h (by simp)
    show listMax (x :: (t ++ [y])) = y
    have hfold : listMax (x :: (t ++ [y])) = max (listMax (x :: t)) y := by
      show (t ++ [y]).foldl max x = max (t.foldl max x) y
      rw [List.foldl_append]
      rfl
    rw [hfold]
    exact max_eq_right h2.le

theorem patternsUpdate_optimal_length (accounts : List AccountEntry)
    (virals : List ViralPost) (p : BenchPatterns) :
    (patternsUpdate accounts virals p).optimal_length =
      if (allLengthsAV accounts virals).isEmpty then p.optimal_length
      else some (optimalLengthOf (allLengthsAV accounts virals)) := rfl

theorem optimalLengthOf_max (l : List ℚ) : (optimalLengthOf l).max = listMax l := rfl

/-- Appending a viral entry appends exactly its word count to `all_lengths`. -/
theorem allLengthsAV_append_viral (accounts : List AccountEntry) (virals : List ViralPost)
    (v : ViralPost) :
    allLengthsAV accounts (virals ++ [v]) =
      allLengthsAV accounts virals ++ [(v.word_count : ℚ)] := by
  unfold allLengthsAV
  rw [List.map_append, ← List.append_assoc]
  rfl

/-- C7: on a benchmark state with a nonempty entry collection whose
`patterns` are recompute-consistent, adding a viral post whose word count
`L` strictly exceeds the stored `optimal_length.max` makes the recomputed
`optimal_length.max` exactly `L`. -/
theorem c7_add_viral_max (s : BenchState) (content : String) (ol : OptimalLength)
    (hne : s.top_accounts ≠ [] ∨ s.viral_posts ≠ [])
    (hcons : s.patterns = (recalculate_patterns s).patterns)
    (hol : s.patterns.optimal_length = some ol)
    (hgt : ol.max < (wordCount content : ℚ)) :
    ∃ ol2 : OptimalLength,
      (add_viral_post s content).patterns.optimal_length = some ol2 ∧
        ol2.max = (wordCount content : ℚ) := by
  have hOldNe : allLengthsAV s.top_accounts s.viral_posts ≠ [] := by
    unfold allLengthsAV
    intro hemp
    rcases List.append_eq_nil.mp hemp with ⟨h1, h2⟩
    rcases hne with h | h
    · exact h (List.map_eq_nil_iff.mp h1)
    · exact h (List.map_eq_nil_iff.mp h2)
  have hmax : ol.max = listMax (allLengthsAV s.top_accounts s.viral_posts) := by
    have h1 : s.patterns.optimal_length = (recalculate_patterns s).patterns.optimal_length :=
      congrArg BenchPatterns.optimal_length hcons
    rw [hol] at h1
    have h2 : (recalculate_patterns s).patterns.optimal_length =
        some (optimalLengthOf (allLengthsAV s.top_accounts s.viral_posts)) := by
      show (patternsUpdate s.top_accounts s.viral_posts s.patterns).optimal_length = _
      rw [patternsUpdate_optimal_length,
        if_neg (by simp [List.isEmpty_iff, hOldNe])]
    rw [h2] at h1
    rw [Option.some.inj h1, optimalLengthOf_max]
  have hNewLens : allLengthsAV s.top_accounts
      (s.viral_posts ++ [⟨content, viralHook content, wordCount content⟩]) =
      allLengthsAV s.top_accounts s.viral_posts ++ [(wordCount content : ℚ)] :=
    allLengthsAV_append_viral _ _ _
  refine ⟨optimalLengthOf (allLengthsAV s.top_accounts
      (s.viral_posts ++ [⟨content, viralHook content, wordCount content⟩])), ?_, ?_⟩
  · show (patternsUpdate s.top_accounts
        (s.viral_posts ++ [⟨content, viralHook content, wordCount content⟩])
        s.patterns).optimal_length = _
    rw [patternsUpdate_optimal_length, if_neg]
    rw [hNewLens]
    simp [List.isEmpty_iff]
  · rw [optimalLengthOf_max, hNewLens]
    exact listMax_concat_of_lt _ _ (fun _ => hmax ▸ hgt)

/-- C7 witness: a recomputed one-entry benchmark (max 3) receives a 5-word
viral post and its `optimal_length.max` becomes 5. -/
theorem c7_witness :
    ∃ ol2 : OptimalLength,
      (add_viral_post
        (recalculate_patterns
          ⟨[], [⟨"a b c", viralHook "a b c", 3⟩],
            ⟨[], [], none, ⟨none, none⟩, [], [], none⟩, none⟩)
        "a b c d e").patterns.optimal_length = some ol2 ∧
      ol2.max = (wordCount "a b c d e" : ℚ) :=
  c7_add_viral_max
    (recalculate_patterns
      ⟨[], [⟨"a b c", viralHook "a b c", 3⟩],
        ⟨[], [], none, ⟨none, none⟩, [], [], none⟩, none⟩)
    "a b c d e" ⟨3, 3, 3, 3⟩
    (by with_unfolding_all decide)
    (by with_unfolding_all decide)
    (by with_unfolding_all decide)
    (by with_unfolding_all decide)

/- ===== C1 ===== -/

/-- C1 counterexample: on the end-to-end scenario text the trigger set does
not contain "curiosity" (none of the curiosity patterns match; the `$50B`
money figure fires "greed" instead), and the specificity is not "concrete"
(only 2 of the 4 signals hold: `$50B` is not a `\$[A-Z]{1,5}` ticker and no
example phrase occurs). -/
theorem c1_counterexample :
    ¬ ("curiosity" ∈ (analyze c1Text "twitter").triggers) ∧
    (analyze c1Text "twitter").specificity ≠ "concrete" := by
  with_unfolding_all decide

/-- C1 (corrected): analyzing the scenario text on "twitter" yields hook
type "question", framework "single", trigger set `["greed"]` (not
containing "curiosity"), specificity "moderate" (not "concrete"), and a
platform-fit score of 100 with no issues (no length deduction applies). -/
theorem c1_scenario :
    (analyze c1Text "twitter").hook_type = "question" ∧
    (analyze c1Text "twitter").framework = "single" ∧
    (analyze c1Text "twitter").triggers = ["greed"] ∧
    (analyze c1Text "twitter").specificity = "moderate" ∧
    (analyze c1Text "twitter").platform_score = 100 ∧
    (analyze c1Text "twitter").platform_issues = [] := by
  with_unfolding_all decide

/- ===== C5 ===== -/

/-- C5 counterexample: on the empty string the sentence and line counts are
1, not 0 (`re.split(r'[.!?]+', "")` and `"".split('\n')` both return `[""]`). -/
theorem c5_counterexample :
    (analyze "" "twitter").sentence_count ≠ 0 ∧
    (analyze "" "twitter").line_count ≠ 0 := by
  with_unfolding_all decide

/-- C5 (corrected): analyzing the empty string never raises (the embedding
is total) and yields word and character counts 0, sentence and line counts
1, no hook (empty hook type, strength 0), an empty trigger set and
specificity "vague". -/
theorem c5_empty_input :
    (analyze "" "twitter").word_count = 0 ∧
    (analyze "" "twitter").char_count = 0 ∧
    (analyze "" "twitter").sentence_count = 1 ∧
    (analyze "" "twitter").line_count = 1 ∧
    (analyze "" "twitter").hook_type = "" ∧
    (analyze "" "twitter").hook_strength = 0 ∧
    (analyze "" "twitter").triggers = [] ∧
    (analyze "" "twitter").specificity = "vague" := by
  with_unfolding_all decide

/- ===== C3 ===== -/

/-- Words produced by the whitespace split are nonempty and contain no
whitespace. -/
theorem splitWsAux_good : ∀ (l acc : List Char), (∀ c ∈ acc, isPyWs c = false) →
    ∀ w ∈ splitWsAux l acc, w ≠ [] ∧ ∀ c ∈ w, isPyWs c = false := by
  intro l
  induction l with
  | nil =>
    intro acc hacc w hw
    rw [splitWsAux] at hw
    by_cases ha : acc.isEmpty = true
    · rw [if_pos ha] at hw
      exact absurd hw (List.not_mem_nil w)
    · rw [if_neg ha] at hw
      rcases List.mem_singleton.mp hw with rfl
      refine ⟨?_, fun c hc => hacc c (List.mem_reverse.mp hc)⟩
      intro h0
      exact ha (List.isEmpty_iff.mpr (by simpa using congrArg List.reverse h0))
  | cons ch t ih =>
    intro acc hacc w hw
    rw [splitWsAux] at hw
    by_cases hc : isPyWs ch = true
    · rw [if_pos hc] at hw
      by_cases ha : acc.isEmpty = true
      · rw [if_pos ha] at hw
        exact ih [] (fun c hc2 => absurd hc2 (List.not_mem_nil c)) w hw
      · rw [if_neg ha] at hw
        rcases List.mem_cons.mp hw with rfl | hmem
        · refine ⟨?_, fun c hc2 => hacc c (List.mem_reverse.mp hc2)⟩
          intro h0
          exact ha (List.isEmpty_iff.mpr (by simpa using congrArg List.reverse h0))
        · exact ih [] (fun c hc2 => absurd hc2 (List.not_mem_nil c)) w hmem
    · rw [if_neg hc] at hw
      refine ih (ch :: acc) ?_ w hw
      intro c hc2
      rcases List.mem_cons.mp hc2 with rfl | h2
      · simpa using hc
      · exact hacc c h2

/-- Scanning a whitespace-free word accumulates it unchanged. -/
theorem splitWsAux_word : ∀ w : List Char, (∀ c ∈ w, isPyWs c = false) →
    ∀ l acc : List Char, splitWsAux (w ++ l) acc = splitWsAux l (w.reverse ++ acc) := by
  intro w
  induction w with
  | nil => intro _ l acc; simp
  | cons c cs ih =>
    intro hw l acc
    have hc : isPyWs c = false := hw c (List.mem_cons_self c cs)
    show splitWsAux (c :: (cs ++ l)) acc = _
    rw [splitWsAux, if_neg (by simp [hc])]
    rw [ih (fun d hd => hw d (List.mem_cons_of_mem c hd)) l (c :: acc)]
    congr 1
    simp

/-- Splitting the space-join of good words returns exactly the words. -/
theorem splitWsAux_join : ∀ ws : List (List Char),
    (∀ w ∈ ws, w ≠ [] ∧ ∀ c ∈ w, isPyWs c = false) →
    splitWsAux (joinSpaceL ws) [] = ws := by
  intro ws
  induction ws with
  | nil => intro _; rfl
  | cons w t ih =>
    intro h
    obtain ⟨hw1, hw2⟩ := h w (List.mem_cons_self w t)
    cases t with
    | nil =>
      show splitWsAux (joinSpaceL [w]) [] = [w]
      rw [show joinSpaceL [w] = w ++ [] by simp [joinSpaceL]]
      rw [splitWsAux_word w hw2 [] []]
      rw [splitWsAux, if_neg (by simp [List.isEmpty_iff, hw1])]
      simp
    | cons w2 t2 =>
      show splitWsAux (w ++ (' ' :: joinSpaceL (w2 :: t2))) [] = w :: w2 :: t2
      rw [splitWsAux_word w hw2 _ []]
      rw [splitWsAux, if_pos (show isPyWs ' ' = true by decide),
        if_neg (by simp [List.isEmpty_iff, hw1])]
      rw [ih (fun x hx => h x (List.mem_cons_of_mem w hx))]
      simp

theorem appendDotLastL_length : ∀ ws : List (List Char),
    (appendDotLastL ws).length = ws.length := by
  intro ws
  induction ws with
  | nil => rfl
  | cons w t ih =>
    cases t with
    | nil => rfl
    | cons w2 t2 =>
      show (w :: appendDotLastL (w2 :: t2)).length = _
      simp only [List.length_cons, ih]

theorem appendDotLastL_good : ∀ ws : List (List Char),
    (∀ w ∈ ws, w ≠ [] ∧ ∀ c ∈ w, isPyWs c = false) →
    ∀ w ∈ appendDotLastL ws, w ≠ [] ∧ ∀ c ∈ w, isPyWs c = false := by
  intro ws
  induction ws with
  | nil => intro _ w hw; exact absurd hw (List.not_mem_nil w)
  | cons x t ih =>
    intro h w hw
    cases t with
    | nil =>
      rcases List.mem_singleton.mp hw with rfl
      obtain ⟨_, h2⟩ := h x (List.mem_cons_self x [])
      refine ⟨by simp, ?_⟩
      intro c hc
      rcases List.mem_append.mp hc with h3 | h3
      · exact h2 c h3
      · rcases List.mem_singleton.mp h3 with rfl
        decide
    | cons x2 t2 =>
      rcases List.mem_cons.mp hw with rfl | hmem
      · exact h w (List.mem_cons_self w (x2 :: t2))
      · exact ih (fun y hy => h y (List.mem_cons_of_mem x hy)) w hmem

theorem joinSpaceL_appendDotLastL : ∀ ws : List (List Char), ws ≠ [] →
    joinSpaceL (appendDotLastL ws) = joinSpaceL ws ++ ['.'] := by
  intro ws
  induction ws with
  | nil => intro h; exact absurd rfl h
  | cons w t ih =>
    intro _
    cases t with
    | nil => rfl
    | cons w2 t2 =>
      show joinSpaceL (w :: appendDotLastL (w2 :: t2)) =
        (w ++ ' ' :: joinSpaceL (w2 :: t2)) ++ ['.']
      have ih2 := ih (by simp)
      obtain ⟨z, zs, hz⟩ : ∃ z zs, appendDotLastL (w2 :: t2) = z :: zs := by
        cases t2 <;> exact ⟨_, _, rfl⟩
      rw [hz]
      show w ++ ' ' :: joinSpaceL (z :: zs) = _
      rw [← hz, ih2]
      simp

theorem wordCount_data (s : String) : wordCount s = (splitWsAux s.data []).length := by
  unfold wordCount pySplitWs
  exact List.length_map _ _

theorem pySplitWs_good (text : String) :
    ∀ w ∈ pySplitWs text, w.data ≠ [] ∧ ∀ c ∈ w.data, isPyWs c = false := by
  intro w hw
  unfold pySplitWs at hw
  obtain ⟨l, hl, rfl⟩ := List.mem_map.mp hw
  exact splitWsAux_good text.data [] (fun c hc => absurd hc (List.not_mem_nil c)) l hl

theorem wordCount_joinSpace (ws : List String)
    (h : ∀ w ∈ ws, w.data ≠ [] ∧ ∀ c ∈ w.data, isPyWs c = false) :
    wordCount (joinSpace ws) = ws.length := by
  rw [wordCount_data]
  rw [show (joinSpace ws).data = joinSpaceL (ws.map String.data) from rfl]
  rw [splitWsAux_join (ws.map String.data) (fun l hl => by
    obtain ⟨w, hw, rfl⟩ := List.mem_map.mp hl
    exact h w hw)]
  exact List.length_map _ _

theorem wordCount_joinSpace_dot (ws : List String) (hne : ws ≠ [])
    (h : ∀ w ∈ ws, w.data ≠ [] ∧ ∀ c ∈ w.data, isPyWs c = false) :
    wordCount (joinSpace ws ++ ".") = ws.length := by
  rw [wordCount_data]
  rw [show (joinSpace ws ++ ".").data = joinSpaceL (ws.map String.data) ++ ['.'] from rfl]
  rw [← joinSpaceL_appendDotLastL (ws.map String.data) (by simpa using hne)]
  rw [splitWsAux_join _ (appendDotLastL_good (ws.map String.data) (fun l hl => by
    obtain ⟨w, hw, rfl⟩ := List.mem_map.mp hl
    exact h w hw))]
  rw [appendDotLastL_length]
  exact List.length_map _ _

/-- C3 (corrected: the exact-truncation guarantee needs `T ≥ 1`; at `T = 0`
the appended period itself becomes a word): for every expansion policy,
text and target `T ≥ 1`, if the pre-calibration word count exceeds `T + 5`
the result has exactly `T` words and ends with terminal punctuation, and a
pre-calibration count within `[T − 3, T + 5]` returns the text unchanged. -/
theorem c3_length_calibration (expand : String → String) (text : String) (target : ℤ)
    (htarget : 1 ≤ target) :
    ((wordCount text : ℤ) > target + 5 →
      (wordCount (adjust_length expand text target) : ℤ) = target ∧
      endsWithPunct (adjust_length expand text target) = true) ∧
    (target - 3 ≤ (wordCount text : ℤ) ∧ (wordCount text : ℤ) ≤ target + 5 →
      adjust_length expand text target = text) := by
  have heq : adjust_length expand text target =
      (if (wordCount text : ℤ) > target + 5 then
        (if endsWithPunct (joinSpace (pySliceTo (pySplitWs text) target)) then
          joinSpace (pySliceTo (pySplitWs text) target)
        else joinSpace (pySliceTo (pySplitWs text) target) ++ ".")
      else if (wordCount text : ℤ) < target - 3 then expand text
      else text) := rfl
  have hwc : wordCount text = (pySplitWs text).length := rfl
  constructor
  · intro hgt
    rw [heq, if_pos hgt]
    have hslice : pySliceTo (pySplitWs text) target = (pySplitWs text).take target.toNat := by
      unfold pySliceTo
      rw [if_pos (by omega)]
    have htake : ((pySplitWs text).take target.toNat).length = target.toNat := by
      rw [List.length_take]
      apply min_eq_left
      omega
    have hgood : ∀ w ∈ (pySplitWs text).take target.toNat,
        w.data ≠ [] ∧ ∀ c ∈ w.data, isPyWs c = false :=
      fun w hw => pySplitWs_good text w (List.take_subset _ _ hw)
    have hne : (pySplitWs text).take target.toNat ≠ [] := by
      intro h0
      have := congrArg List.length h0
      rw [htake] at this
      simp at this
      omega
    rw [hslice]
    by_cases hp : endsWithPunct (joinSpace ((pySplitWs text).take target.toNat)) = true
    · rw [if_pos hp]
      refine ⟨?_, hp⟩
      rw [wordCount_joinSpace _ hgood, htake]
      omega
    · rw [if_neg hp]
      constructor
      · rw [wordCount_joinSpace_dot _ hne hgood, htake]
        omega
      · have hlast : lastChar (joinSpace ((pySplitWs text).take target.toNat) ++ ".") =
            some '.' := by
          show ((joinSpace ((pySplitWs text).take target.toNat)).data ++ ['.']).getLast? =
            some '.'
          exact List.getLast?_concat _
        unfold endsWithPunct
        rw [hlast]
        decide
  · intro hband
    rw [heq, if_neg (by omega), if_neg (by omega)]

/-- C3 witness: an 8-word text truncated to target 2 yields exactly 2 words
with terminal punctuation, and a 2-word text within the band is unchanged
(this instantiation exercises the truncation implication). -/
theorem c3_witness :
    ((wordCount "a b c d e f g h" : ℤ) > 2 + 5 →
      (wordCount (adjust_length id "a b c d e f g h" 2) : ℤ) = 2 ∧
      endsWithPunct (adjust_length id "a b c d e f g h" 2) = true) ∧
    (2 - 3 ≤ (wordCount "a b c d e f g h" : ℤ) ∧ (wordCount "a b c d e f g h" : ℤ) ≤ 2 + 5 →
      adjust_length id "a b c d e f g h" 2 = "a b c d e f g h") :=
  c3_length_calibration id "a b c d e f g h" 2 (by norm_num)

/-- C3 counterexample: at target `T = 0` a 6-word text truncates to the bare
appended period, whose word count is 1, not 0. -/
theorem c3_counterexample :
    (wordCount "a b c d e f" : ℤ) > 0 + 5 ∧
    (wordCount (adjust_length id "a b c d e f" 0) : ℤ) ≠ 0 := by
  with_unfolding_all decide

end CaptureKit
